import Mathlib

/-!
Verification of the Lead Intelligence Pipeline specification against the
repository.  The front-end store (store.ts) and the BurningHouseScore
component are embedded directly from their TypeScript sources.  The
Python pipeline modules (scoring_matrix.py, lead_refinery.py,
gotham_module.py, the cache layer and the batch processor) are not part
of the repository snapshot; the definitions for them below are modelled
from the specification and the in-repo documentation (the Asset Sniper
README with its tier-threshold and weight tables, the audit reports with
their concrete test vectors).
-/

namespace LeadPipeline

/-! ## Scoring Matrix: tiers and score breakdown

Modelled from the spec: scoring_matrix.py is absent from the snapshot;
the tier thresholds and the five weighted sub-score maxima are taken
from the Asset Sniper README table (S 85-100, AAA 75-84, AA 65-74,
A 50-64, B 35-49, C-E 0-34; weights 30/25/20/15/10).  The README gives
the bottom band as the combined range C-E, without separate thresholds
for C, D and E, so it is modelled as a single band. -/

inductive Tier where
  | S | AAA | AA | A | B | CE
deriving DecidableEq, Repr

/-- Tier assignment from a total score, following the README threshold
table. -/
def tierOf (score : Nat) : Tier :=
  if 85 ≤ score then .S
  else if 75 ≤ score then .AAA
  else if 65 ≤ score then .AA
  else if 50 ≤ score then .A
  else if 35 ≤ score then .B
  else .CE

/-- Membership of a score in the threshold band of a tier, as the README
table states the bands. -/
def inBand (t : Tier) (s : Nat) : Bool :=
  match t with
  | .S => 85 ≤ s && s ≤ 100
  | .AAA => 75 ≤ s && s ≤ 84
  | .AA => 65 ≤ s && s ≤ 74
  | .A => 50 ≤ s && s ≤ 64
  | .B => 35 ≤ s && s ≤ 49
  | .CE => s ≤ 34

/-- The five named sub-scores with their declared maxima and the clamped
total, as the spec's ScoreBreakdown describes. -/
structure ScoreBreakdown where
  industry : Nat
  wealth : Nat
  companyAge : Nat
  infrastructure : Nat
  contactQuality : Nat
  totalScore : Nat
deriving DecidableEq, Repr

def INDUSTRY_MAX : Nat := 30
def WEALTH_MAX : Nat := 25
def COMPANY_AGE_MAX : Nat := 20
def INFRASTRUCTURE_MAX : Nat := 15
def CONTACT_MAX : Nat := 10

/-- Modelled from the spec: the Scoring Matrix clamps each sub-score at
its declared maximum and the total at 100. -/
def mkScoreBreakdown (i w a f c : Nat) : ScoreBreakdown :=
  let ind := min i INDUSTRY_MAX
  let we := min w WEALTH_MAX
  let ag := min a COMPANY_AGE_MAX
  let inf := min f INFRASTRUCTURE_MAX
  let co := min c CONTACT_MAX
  { industry := ind
    wealth := we
    companyAge := ag
    infrastructure := inf
    contactQuality := co
    totalScore := min (ind + we + ag + inf + co) 100 }

/-! ## Lead Refinery: NIP checksum validation

Modelled from the spec: lead_refinery.py is absent from the snapshot.
The 10-digit national business identifier (NIP) checksum uses the
standard weight vector on the first nine digits, sum modulo 11; a
result of 10 is always invalid, otherwise the result must equal the
tenth digit.  The audit report in the repository records the vectors
5261040828 (valid) and 1234567890 (invalid), which this model
reproduces. -/

def nipWeights : List Nat := [6, 5, 7, 2, 3, 4, 5, 6, 7]

/-- Weighted sum modulo 11 of the first nine digits. -/
def nipChecksum (ds : List Nat) : Nat :=
  (((ds.take 9).zip nipWeights).map (fun p => p.1 * p.2)).sum % 11

/-- A 10-digit identifier is valid when all entries are digits, the
checksum is below 10 and equals the final digit. -/
def validNIP (ds : List Nat) : Bool :=
  ds.length == 10 && ds.all (· < 10) &&
    (nipChecksum ds < 10 && ds.getD 9 11 == nipChecksum ds)

inductive RejectionReason where
  | badNip | missingPhone
deriving DecidableEq, Repr

structure RawLead where
  nip : List Nat
deriving DecidableEq, Repr

inductive CleanResult where
  | accepted (r : RawLead)
  | rejectedFlagged (r : RawLead) (reason : RejectionReason)
deriving DecidableEq, Repr

/-- Modelled from the spec: the Refinery accepts a record when its
identifier passes the checksum and otherwise keeps it flagged. -/
def clean (r : RawLead) : CleanResult :=
  if validNIP r.nip then .accepted r else .rejectedFlagged r .badNip

def CleanResult.isAccepted : CleanResult → Bool
  | .accepted _ => true
  | .rejectedFlagged _ _ => false

/-! ## Lead Refinery: phone normalization

Modelled from the spec: strip non-digit characters, recognize the
country-code prefix and normalize to the fixed-length canonical form
48XXXXXXXXX (11 digits). -/

/-- Canonical form: exactly 11 digit characters starting with 48. -/
def isCanonicalPhone (s : List Char) : Bool :=
  s.length == 11 && s.take 2 == ['4', '8'] && s.all Char.isDigit

/-- Modelled from the spec: phone normalization.  Non-digits are
stripped first; a 9-digit local number gains the 48 prefix, a 0048
international prefix is reduced to 48, an already canonical number is
kept; anything else fails. -/
def normalizePhone (s : List Char) : Option (List Char) :=
  let d := s.filter Char.isDigit
  if d.length == 11 && d.take 2 == ['4', '8'] then some d
  else if d.length == 9 then some ('4' :: '8' :: d)
  else if d.length == 13 && d.take 4 == ['0', '0', '4', '8'] then some (d.drop 2)
  else none

/-! ## Cache Store with stale fallback

Modelled from the spec: the backend cache layer (api_cache.py,
gotham/store.py) is absent from the snapshot.  The Cache Store keeps
entries with a fetch timestamp; freshness is decided by a per-category
TTL; on a gateway fetch failure a stale entry is still served with
confidence cachedStale, and only the absence of any entry together with
a failed fetch yields no cache-layer value. -/

inductive SourceConfidence where
  | live | cachedFresh | cachedStale | staticFallback | heuristic
deriving DecidableEq, Repr

structure CacheEntry (α : Type) where
  payload : α
  fetchedAt : Nat
deriving DecidableEq, Repr

/-- A cache store is a keyed family of optional entries. -/
def CacheStore (α : Type) : Type := String → Option (CacheEntry α)

/-- Freshness test: the entry's age with respect to the current time is
within the configured TTL. -/
def entryFresh (ttl now : Nat) (e : CacheEntry α) : Bool :=
  now - e.fetchedAt ≤ ttl

inductive FetchResult (α : Type) where
  | ok (payload : α)
  | failed
deriving DecidableEq, Repr

/-- Modelled from the spec: an enrichment lookup through the cache.  A
fresh entry is served as cachedFresh; otherwise the gateway result is
used when the fetch succeeded; on a failed fetch a present (stale)
entry is served as cachedStale; with no entry and a failed fetch the
cache layer yields nothing and the caller falls back to a static or
heuristic value. -/
def cacheLookup (store : CacheStore α) (key : String) (ttl now : Nat)
    (gw : FetchResult α) : Option (α × SourceConfidence) :=
  match store key with
  | some e =>
    if entryFresh ttl now e then some (e.payload, .cachedFresh)
    else
      match gw with
      | .ok p => some (p, .live)
      | .failed => some (e.payload, .cachedStale)
  | none =>
    match gw with
    | .ok p => some (p, .live)
    | .failed => none

/-! ## Tax/Subsidy Engine

Modelled from the spec: gotham_module.py is absent from the snapshot.
The repair report records its input validation (negative fuel cost, car
value and tax are corrected to zero with a warning) and the spec
requires every monetary output to be non-negative, with negative
savings never propagated.  Amounts are modelled as integers (PLN). -/

def clampNonNeg (x : Int) : Int := max x 0

/-- Depreciation limit for electric vehicles (PLN), from the README. -/
def EV_DEPRECIATION_LIMIT : Int := 225000

/-- Depreciation limit for combustion vehicles (PLN), from the README. -/
def ICE_DEPRECIATION_LIMIT : Int := 150000

/-- Subsidy amounts (PLN) of the NaszEauto program, from the README and
the knowledge base. -/
def SUBSIDY_FAMILY : Int := 27000

def SUBSIDY_STANDARD : Int := 18750

structure TaxInputs where
  annualFuelCost : Int
  annualElectricCost : Int
  marginalTaxRatePercent : Int
  hasFamilyCard : Bool
deriving DecidableEq, Repr

structure TaxOutputs where
  annualFuelSavings : Int
  annualTaxBenefit : Int
  subsidyAmount : Int
deriving DecidableEq, Repr

/-- Modelled from the spec: the Tax/Subsidy engine clamps every negative
intermediate input to zero (logging a warning), computes the fuel-cost
differential and the depreciation-limit benefit scaled by the marginal
tax rate, and adds the flat subsidy (higher with a family card).
Negative savings are clamped, never propagated. -/
def computeTaxBenefit (inp : TaxInputs) : TaxOutputs :=
  let fuel := clampNonNeg inp.annualFuelCost
  let ev := clampNonNeg inp.annualElectricCost
  let rate := clampNonNeg inp.marginalTaxRatePercent
  { annualFuelSavings := clampNonNeg (fuel - ev)
    annualTaxBenefit :=
      clampNonNeg ((EV_DEPRECIATION_LIMIT - ICE_DEPRECIATION_LIMIT) * rate / 100)
    subsidyAmount := if inp.hasFamilyCard then SUBSIDY_FAMILY else SUBSIDY_STANDARD }

/-! ## Batch Orchestrator

Modelled from the spec: the BatchProcessor (asset_sniper/utils) is
absent from the snapshot.  Its documented contract splits the input
into fixed-size chunks and applies the per-record refine-enrich-score
pipeline to each chunk independently, concatenating the results.  The
per-record pipeline is pure, so it is modelled as a function from an
input record to its score breakdown. -/

structure LeadInput where
  nip : List Nat
  industryInput : Nat
  wealthInput : Nat
  ageInput : Nat
  infraInput : Nat
  contactInput : Nat
deriving DecidableEq, Repr

/-- The pure per-record pipeline: refinery acceptance plus the scoring
matrix and the tier assignment. -/
def processRecord (r : LeadInput) : Bool × ScoreBreakdown × Tier :=
  let b := mkScoreBreakdown r.industryInput r.wealthInput r.ageInput
    r.infraInput r.contactInput
  ((clean { nip := r.nip }).isAccepted, b, tierOf b.totalScore)

/-- Split a list into chunks of the given size; a size of zero is
treated as a single chunk. -/
def chunksOf : Nat → List α → List (List α)
  | _, [] => []
  | 0, l => [l]
  | n + 1, a :: as =>
    (a :: as).take (n + 1) :: chunksOf (n + 1) ((a :: as).drop (n + 1))
termination_by _ l => l.length
decreasing_by
  simp [List.length_drop]
  omega

/-- Whole-file processing: the pipeline applied record by record. -/
def processWhole (file : List LeadInput) : List (Bool × ScoreBreakdown × Tier) :=
  file.map processRecord

/-- Chunked processing: each chunk refined, enriched and scored
independently, results concatenated in order. -/
def processChunked (n : Nat) (file : List LeadInput) :
    List (Bool × ScoreBreakdown × Tier) :=
  ((chunksOf n file).map (fun chunk => chunk.map processRecord)).flatten

/-- Number of records assigned a given tier in a result list. -/
def tierCount (t : Tier) (rs : List (Bool × ScoreBreakdown × Tier)) : Nat :=
  (rs.filter (fun r => r.2.2 == t)).length

end LeadPipeline

namespace Frontend

/-! ## Frontend data model (types.ts)

Embedded from the TypeScript sources in src/: the shared type
declarations, the BurningHouseScore component and the Zustand store.
Numbers are modelled as integers for counts and timestamps and as
rationals for confidence values; fields the code guards against being
null or undefined at runtime are modelled as options. -/

inductive JourneyStage where
  | discovery | demo | objectionHandling | financing | closing | delivery
deriving DecidableEq, Repr

inductive ViewState where
  | dashboard | chat | admin | dojo
deriving DecidableEq, Repr

inductive Theme where
  | dark | light
deriving DecidableEq, Repr

inductive Language where
  | pl | en
deriving DecidableEq, Repr

inductive Role where
  | user | ai | system
deriving DecidableEq, Repr

inductive Feedback where
  | positive | negative
deriving DecidableEq, Repr

structure Message where
  id : String
  role : Role
  content : String
  timestamp : Nat
  confidence : Option ℚ
  feedback : Option Feedback
deriving DecidableEq, Repr

inductive CommStyle where
  | analytical | driver | amiable | expressive
deriving DecidableEq, Repr

structure ModuleDNA where
  summary : String
  mainMotivation : String
  communicationStyle : CommStyle
deriving DecidableEq, Repr

inductive RiskLevel where
  | low | medium | high
deriving DecidableEq, Repr

structure ModuleIndicators where
  purchaseTemperature : Nat
  churnRisk : RiskLevel
  funDriveRisk : RiskLevel
deriving DecidableEq, Repr

structure DiscProfile where
  dominance : Nat
  influence : Nat
  steadiness : Nat
  compliance : Nat
deriving DecidableEq, Repr

structure BigFiveProfile where
  openness : Nat
  conscientiousness : Nat
  extraversion : Nat
  agreeableness : Nat
  neuroticism : Nat
deriving DecidableEq, Repr

structure SchwartzProfile where
  opennessToChange : Nat
  selfEnhancement : Nat
  conservation : Nat
  selfTranscendence : Nat
deriving DecidableEq, Repr

structure ModulePsychometrics where
  disc : DiscProfile
  bigFive : BigFiveProfile
  schwartz : SchwartzProfile
deriving DecidableEq, Repr

structure ModuleMotivation where
  keyInsights : List String
  teslaHooks : List String
deriving DecidableEq, Repr

structure Scenario where
  name : String
  probability : ℚ
  description : String
deriving DecidableEq, Repr

structure ModulePredictions where
  scenarios : List Scenario
  estimatedTimeline : String
deriving DecidableEq, Repr

structure SSREntry where
  fact : String
  implication : String
  solution : String
  action : String
deriving DecidableEq, Repr

structure ModulePlaybook where
  suggestedTactics : List String
  ssr : List SSREntry
deriving DecidableEq, Repr

structure ModuleDecision where
  decisionMaker : String
  influencers : List String
  criticalPath : String
deriving DecidableEq, Repr

/-- The auto-stage detection payload.  The store code guards the stage
with a truthiness test, so it is modelled as optional. -/
structure JourneyStageAnalysis where
  currentStage : Option JourneyStage
  confidence : ℚ
  reasoning : String
deriving DecidableEq, Repr

structure AnalysisState where
  m1_dna : ModuleDNA
  m2_indicators : ModuleIndicators
  m3_psychometrics : ModulePsychometrics
  m4_motivation : ModuleMotivation
  m5_predictions : ModulePredictions
  m6_playbook : ModulePlaybook
  m7_decision : ModuleDecision
  journeyStageAnalysis : JourneyStageAnalysis
  isAnalyzing : Bool
  lastUpdated : Nat
deriving DecidableEq, Repr

/-- A Partial of AnalysisState as passed to updateAnalysis: each field
optionally present. -/
structure AnalysisPatch where
  m1_dna : Option ModuleDNA := none
  m2_indicators : Option ModuleIndicators := none
  m3_psychometrics : Option ModulePsychometrics := none
  m4_motivation : Option ModuleMotivation := none
  m5_predictions : Option ModulePredictions := none
  m6_playbook : Option ModulePlaybook := none
  m7_decision : Option ModuleDecision := none
  journeyStageAnalysis : Option JourneyStageAnalysis := none
  isAnalyzing : Option Bool := none
  lastUpdated : Option Nat := none
deriving DecidableEq, Repr

inductive SessionStatus where
  | active | closed
deriving DecidableEq, Repr

inductive Outcome where
  | sale | noSale
deriving DecidableEq, Repr

structure Session where
  id : String
  createdAt : Nat
  status : SessionStatus
  outcome : Option Outcome
  journeyStage : JourneyStage
  messages : List Message
  lastUpdated : Nat
  analysisState : AnalysisState
deriving DecidableEq, Repr

inductive LogType where
  | info | warn | error | success
deriving DecidableEq, Repr

inductive LogSource where
  | system | user | ai
deriving DecidableEq, Repr

structure LogEntry where
  id : String
  timestamp : Nat
  type : LogType
  message : String
  source : LogSource
deriving DecidableEq, Repr

structure RagNugget where
  id : String
  title : String
  content : String
  keywords : List String
  language : String
deriving DecidableEq, Repr

inductive StandardCategory where
  | financial | competitive | technical | objection
deriving DecidableEq, Repr

structure GoldenStandard where
  id : String
  category : StandardCategory
  context : String
  response : String
  tags : List String
  language : String
  date : String
deriving DecidableEq, Repr

structure KnowledgeBase where
  nuggets : List RagNugget
  standards : List GoldenStandard
deriving DecidableEq, Repr

/-- The Zustand store state (store.ts).  The sessions record is
modelled as a keyed family of optional sessions. -/
structure AppState where
  currentView : ViewState
  currentSessionId : Option String
  sessions : String → Option Session
  currentAnalysis : AnalysisState
  knowledgeBase : KnowledgeBase
  systemLogs : List LogEntry
  theme : Theme
  language : Language

/-- Record update of the sessions map at one key. -/
def setSession (m : String → Option Session) (k : String) (v : Session) :
    String → Option Session :=
  fun k2 => if k2 = k then some v else m k2

def outcomeUpper : Outcome → String
  | .sale => "SALE"
  | .noSale => "NO_SALE"

/-- The log entry prepended by closeSession in store.ts. -/
def closeLog (id : String) (outcome : Outcome) (now : Nat) : LogEntry :=
  { id := "log-" ++ toString now
    timestamp := now
    type := match outcome with | .sale => .success | .noSale => .warn
    message := "Session " ++ id ++ " closed with outcome: " ++ outcomeUpper outcome
    source := .user }

/-- closeSession from store.ts: if the session exists, mark it closed
with the given outcome and timestamp, deselect it, return to the
dashboard and prepend a log entry; otherwise return the state
unchanged.  Date.now() is passed explicitly as now. -/
def closeSession (st : AppState) (id : String) (outcome : Outcome) (now : Nat) :
    AppState :=
  match st.sessions id with
  | none => st
  | some session =>
    { st with
      sessions := setSession st.sessions id
        { session with status := .closed, outcome := some outcome, lastUpdated := now }
      currentSessionId := none
      currentView := .dashboard
      systemLogs := closeLog id outcome now :: st.systemLogs }

/-- The object spread merge in updateAnalysis: fields present in the
patch replace those of the current analysis, and lastUpdated is then
overwritten with the current time. -/
def mergeAnalysis (a : AnalysisState) (p : AnalysisPatch) (now : Nat) :
    AnalysisState :=
  { m1_dna := p.m1_dna.getD a.m1_dna
    m2_indicators := p.m2_indicators.getD a.m2_indicators
    m3_psychometrics := p.m3_psychometrics.getD a.m3_psychometrics
    m4_motivation := p.m4_motivation.getD a.m4_motivation
    m5_predictions := p.m5_predictions.getD a.m5_predictions
    m6_playbook := p.m6_playbook.getD a.m6_playbook
    m7_decision := p.m7_decision.getD a.m7_decision
    journeyStageAnalysis := p.journeyStageAnalysis.getD a.journeyStageAnalysis
    isAnalyzing := p.isAnalyzing.getD a.isAnalyzing
    lastUpdated := now }

/-- updateAnalysis from store.ts: with no current session the state is
returned unchanged; otherwise the merged analysis is stored and the
session's journey stage is switched only when the incoming stage
analysis carries a non-null stage with confidence strictly above 0.7
that differs from the current stage. -/
def updateAnalysis (st : AppState) (p : AnalysisPatch) (now : Nat) : AppState :=
  match st.currentSessionId with
  | none => st
  | some sid =>
    match st.sessions sid with
    | none => st
    | some currentSession =>
      let updatedAnalysis := mergeAnalysis st.currentAnalysis p now
      let updatedStage :=
        match p.journeyStageAnalysis with
        | none => currentSession.journeyStage
        | some jsa =>
          match jsa.currentStage with
          | none => currentSession.journeyStage
          | some aiStage =>
            if (7 : ℚ)/10 < jsa.confidence ∧ aiStage ≠ currentSession.journeyStage
            then aiStage else currentSession.journeyStage
      { st with
        currentAnalysis := updatedAnalysis
        sessions := setSession st.sessions sid
          { currentSession with
            analysisState := updatedAnalysis
            journeyStage := updatedStage } }

/-! ## BurningHouseScore component (BurningHouseScore.tsx)

Embedded from the component source: the GothamData shape it consumes,
its DEMO_DATA constant, and its demo-mode selection logic. -/

structure BurningHouseScore where
  total_annual_loss : Int
  ev_annual_cost : Int
  annual_savings : Int
  dotacja_naszeauto : Int
  net_benefit_3_years : Int
  urgency_score : Int
  urgency_message : String
deriving DecidableEq, Repr

structure CEPiKMarket where
  region : String
  total_ev_registrations_2024 : Int
  growth_rate_yoy : ℚ
  top_brand : String
  trend : String
deriving DecidableEq, Repr

inductive UrgencyLevel where
  | critical | high | medium | low
deriving DecidableEq, Repr

structure GothamData where
  burning_house_score : Option BurningHouseScore
  cepik_market : Option CEPiKMarket
  market_context_text : String
  sales_hooks : List String
  urgency_level : UrgencyLevel
deriving DecidableEq, Repr

/-- The DEMO_DATA constant of BurningHouseScore.tsx. -/
def DEMO_DATA : GothamData :=
  { burning_house_score := some
      { total_annual_loss := 24000
        ev_annual_cost := 1800
        annual_savings := 22200
        dotacja_naszeauto := 27000
        net_benefit_3_years := 93600
        urgency_score := 78
        urgency_message := "⚠️ TRYB DEMO - Dane testowe. Wprowadź dane klienta aby zobaczyć rzeczywiste obliczenia." }
    cepik_market := none
    market_context_text := "TRYB DEMONSTRACYJNY"
    sales_hooks :=
      [ "💡 DEMO: Klient traci ~24,000 PLN rocznie na paliwie"
      , "💡 DEMO: Dotacja NaszEauto: 27,000 PLN"
      , "💡 DEMO: Wprowadź rzeczywiste dane klienta powyżej" ]
    urgency_level := .high }

/-- The component's demo-mode test: no data, a missing burning house
score, or an urgency score equal to zero. -/
def isDemo (data : Option GothamData) : Bool :=
  match data with
  | none => true
  | some d =>
    match d.burning_house_score with
    | none => true
    | some b => b.urgency_score == 0

/-- The data the component renders: DEMO_DATA in demo mode, the input
otherwise. -/
def displayData (data : Option GothamData) : GothamData :=
  match data with
  | none => DEMO_DATA
  | some d => if isDemo (some d) then DEMO_DATA else d

/-! ## Concrete fixtures

Closed values used to instantiate the theorems below on concrete
inputs: an analysis state mirroring INITIAL_ANALYSIS from types.ts, a
session, a store state, a stage-analysis patch, and a Gotham payload
with a genuine zero urgency score. -/

def INITIAL_ANALYSIS : AnalysisState :=
  { m1_dna :=
      { summary := "Awaiting data...", mainMotivation := "Unknown"
        communicationStyle := .analytical }
    m2_indicators :=
      { purchaseTemperature := 0, churnRisk := .low, funDriveRisk := .low }
    m3_psychometrics :=
      { disc := ⟨50, 50, 50, 50⟩
        bigFive := ⟨50, 50, 50, 50, 50⟩
        schwartz := ⟨50, 50, 50, 50⟩ }
    m4_motivation := { keyInsights := [], teslaHooks := [] }
    m5_predictions := { scenarios := [], estimatedTimeline := "Unknown" }
    m6_playbook := { suggestedTactics := [], ssr := [] }
    m7_decision :=
      { decisionMaker := "Unknown", influencers := [], criticalPath := "Unknown" }
    journeyStageAnalysis :=
      { currentStage := some .discovery, confidence := 0
        reasoning := "Initializing..." }
    isAnalyzing := false
    lastUpdated := 0 }

def demoSession : Session :=
  { id := "S-XLC-589", createdAt := 0, status := .active, outcome := none
    journeyStage := .objectionHandling, messages := [], lastUpdated := 0
    analysisState := INITIAL_ANALYSIS }

def demoState : AppState :=
  { currentView := .dashboard
    currentSessionId := some "S-XLC-589"
    sessions := fun k => if k = "S-XLC-589" then some demoSession else none
    currentAnalysis := INITIAL_ANALYSIS
    knowledgeBase := { nuggets := [], standards := [] }
    systemLogs := []
    theme := .dark
    language := .pl }

/-- A patch carrying a confident stage suggestion, as the analysis
mapper would deliver over the websocket. -/
def stagePatch : AnalysisPatch :=
  { journeyStageAnalysis := some
      { currentStage := some .closing, confidence := 9/10
        reasoning := "closing signals detected" } }

/-- A burning-house score with a genuine zero urgency value. -/
def zeroUrgencyBHS : BurningHouseScore :=
  { total_annual_loss := 5000, ev_annual_cost := 1000, annual_savings := 4000
    dotacja_naszeauto := 18750, net_benefit_3_years := 12000
    urgency_score := 0, urgency_message := "computed zero urgency" }

def zeroUrgencyData : GothamData :=
  { burning_house_score := some zeroUrgencyBHS
    cepik_market := none
    market_context_text := "real backend payload"
    sales_hooks := []
    urgency_level := .low }

end Frontend

namespace LeadPipeline

/-- A cache entry fetched at time 0, stale for any TTL below the
current time used in the witness. -/
def demoEntry : CacheEntry String := { payload := "regional ev stats", fetchedAt := 0 }

/-- A cache store holding exactly one entry. -/
def demoStore : CacheStore String :=
  fun k => if k = "cepik_slask" then some demoEntry else none

/-- Tax-engine input with a negative fuel cost, as the repair report's
validation scenario describes. -/
def taxDemoInput : TaxInputs :=
  { annualFuelCost := -5000, annualElectricCost := 2000
    marginalTaxRatePercent := 32, hasFamilyCard := false }

end LeadPipeline

open LeadPipeline Frontend

section PipelineTheorems

/-- Helper for C1: the tier bands of the README threshold table cover
every score from 0 to 100 and do not overlap, and tierOf picks the
band its score lies in. -/
theorem tier_band_sound (s : Nat) (hs : s ≤ 100) :
    inBand (tierOf s) s = true ∧ ∀ t : Tier, inBand t s = true → t = tierOf s := by
  constructor
  · simp only [tierOf]
    split_ifs with h1 h2 h3 h4 h5 <;> simp [inBand] <;> omega
  · intro t ht
    cases t <;> simp [inBand] at ht <;> simp only [tierOf] <;>
      split_ifs <;> first | rfl | (exfalso; omega)

/-- C1: for every combination of sub-score inputs the Scoring Matrix
total lies in [0, 100], and the tier assignment is a total function on
scores whose threshold bands are non-overlapping and cover the whole
0-100 range with no gap. -/
theorem totalScore_range_and_tier_partition :
    (∀ i w a f c : Nat, (mkScoreBreakdown i w a f c).totalScore ≤ 100) ∧
    (∀ s : Nat, s ≤ 100 →
      inBand (tierOf s) s = true ∧ ∀ t : Tier, inBand t s = true → t = tierOf s) := by
  constructor
  · intro i w a f c
    exact Nat.min_le_right _ _
  · exact fun s hs => tier_band_sound s hs

/-- Witness for C1 at the concrete score 77 (band AAA). -/
theorem totalScore_tier_witness :
    (77 : Nat) ≤ 100 ∧
      (inBand (tierOf 77) 77 = true ∧
        ∀ t : Tier, inBand t 77 = true → t = tierOf 77) :=
  ⟨by decide, totalScore_range_and_tier_partition.2 77 (by decide)⟩

/-- C5: the five sub-scores carry the fixed maxima 30, 25, 20, 15 and
10, each result is bounded by its maximum, the total equals the clamped
sum of the five sub-scores, and the maxima sum to exactly 100. -/
theorem score_breakdown_maxima :
    (∀ i w a f c : Nat,
      (mkScoreBreakdown i w a f c).industry ≤ INDUSTRY_MAX ∧
      (mkScoreBreakdown i w a f c).wealth ≤ WEALTH_MAX ∧
      (mkScoreBreakdown i w a f c).companyAge ≤ COMPANY_AGE_MAX ∧
      (mkScoreBreakdown i w a f c).infrastructure ≤ INFRASTRUCTURE_MAX ∧
      (mkScoreBreakdown i w a f c).contactQuality ≤ CONTACT_MAX ∧
      (mkScoreBreakdown i w a f c).totalScore =
        min ((mkScoreBreakdown i w a f c).industry +
          (mkScoreBreakdown i w a f c).wealth +
          (mkScoreBreakdown i w a f c).companyAge +
          (mkScoreBreakdown i w a f c).infrastructure +
          (mkScoreBreakdown i w a f c).contactQuality) 100) ∧
    INDUSTRY_MAX + WEALTH_MAX + COMPANY_AGE_MAX + INFRASTRUCTURE_MAX + CONTACT_MAX = 100 := by
  constructor
  · intro i w a f c
    simp [mkScoreBreakdown, INDUSTRY_MAX, WEALTH_MAX, COMPANY_AGE_MAX,
      INFRASTRUCTURE_MAX, CONTACT_MAX]
  · rfl

/-- C2: a 10-digit identifier whose checksum matches its final digit is
accepted by clean, and one whose final digit mismatches the checksum is
rejected. -/
theorem nip_checksum_accept_reject (ds : List Nat)
    (hlen : ds.length = 10) (hdig : ∀ d ∈ ds, d < 10) :
    (ds.getD 9 11 = nipChecksum ds → (clean { nip := ds }).isAccepted = true) ∧
    (ds.getD 9 11 ≠ nipChecksum ds → (clean { nip := ds }).isAccepted = false) := by
  constructor
  · intro hmatch
    have h9 : ds.getD 9 11 < 10 := by
      have hlt : 9 < ds.length := by omega
      rw [List.getD_eq_getElem ds 11 hlt]
      exact hdig _ (List.getElem_mem hlt)
    have hv : validNIP ds = true := by
      unfold validNIP
      rw [hmatch]
      simp only [Bool.and_eq_true, beq_iff_eq, List.all_eq_true, decide_eq_true_eq]
      exact ⟨⟨hlen, fun d hd => hdig d hd⟩, by omega, trivial⟩
    simp [clean, hv, CleanResult.isAccepted]
  · intro hmis
    have hne : (ds.getD 9 11 == nipChecksum ds) = false := beq_eq_false_iff_ne.mpr hmis
    have hv : validNIP ds = false := by
      unfold validNIP
      rw [hne]
      simp
    simp [clean, hv, CleanResult.isAccepted]

/-- Witness for C2 at the audit report's vectors: 5261040828 passes the
checksum and is accepted, 1234567890 fails it and is rejected. -/
theorem nip_checksum_witness :
    ([5, 2, 6, 1, 0, 4, 0, 8, 2, 8] : List Nat).length = 10 ∧
    (∀ d ∈ ([5, 2, 6, 1, 0, 4, 0, 8, 2, 8] : List Nat), d < 10) ∧
    (clean { nip := [5, 2, 6, 1, 0, 4, 0, 8, 2, 8] }).isAccepted = true ∧
    (clean { nip := [1, 2, 3, 4, 5, 6, 7, 8, 9, 0] }).isAccepted = false :=
  ⟨by decide, by decide,
    (nip_checksum_accept_reject _ (by decide) (by decide)).1 (by decide),
    (nip_checksum_accept_reject _ (by decide) (by decide)).2 (by decide)⟩

/-- C7: normalizing a phone number already in the canonical
48XXXXXXXXX digits-only form returns it unchanged. -/
theorem phone_normalization_idempotent (s : List Char)
    (h : isCanonicalPhone s = true) : normalizePhone s = some s := by
  simp only [isCanonicalPhone, Bool.and_eq_true, beq_iff_eq, List.all_eq_true] at h
  obtain ⟨⟨h1, h2⟩, h3⟩ := h
  have hf : s.filter Char.isDigit = s := List.filter_eq_self.mpr h3
  simp [normalizePhone, hf, h1, h2]

/-- Witness for C7 at the canonical number 48123456789. -/
theorem phone_normalization_witness :
    isCanonicalPhone ['4', '8', '1', '2', '3', '4', '5', '6', '7', '8', '9'] = true ∧
    normalizePhone ['4', '8', '1', '2', '3', '4', '5', '6', '7', '8', '9'] =
      some ['4', '8', '1', '2', '3', '4', '5', '6', '7', '8', '9'] :=
  ⟨by decide, phone_normalization_idempotent _ (by decide)⟩

/-- C3: when the gateway fetch fails and a stale entry is present, the
cache lookup returns that entry's payload, non-null, tagged
cachedStale. -/
theorem stale_cache_fallback {α : Type} (store : CacheStore α) (key : String)
    (ttl now : Nat) (e : CacheEntry α) (hstore : store key = some e)
    (hstale : entryFresh ttl now e = false) :
    cacheLookup store key ttl now .failed = some (e.payload, .cachedStale) := by
  simp [cacheLookup, hstore, hstale]

/-- Witness for C3: a store holding one stale entry served on a failed
fetch. -/
theorem stale_cache_witness :
    demoStore "cepik_slask" = some demoEntry ∧
    entryFresh 24 100 demoEntry = false ∧
    cacheLookup demoStore "cepik_slask" 24 100 .failed =
      some (demoEntry.payload, .cachedStale) :=
  ⟨rfl, by decide, stale_cache_fallback demoStore "cepik_slask" 24 100 demoEntry rfl (by decide)⟩

/-- C6: every monetary output of the Tax/Subsidy engine is
non-negative, and a negative intermediate input is clamped to zero:
the outputs agree with those for the input corrected to zero. -/
theorem tax_outputs_nonneg (inp : TaxInputs) :
    (0 ≤ (computeTaxBenefit inp).annualFuelSavings ∧
      0 ≤ (computeTaxBenefit inp).annualTaxBenefit ∧
      0 ≤ (computeTaxBenefit inp).subsidyAmount) ∧
    (inp.annualFuelCost < 0 →
      computeTaxBenefit inp = computeTaxBenefit { inp with annualFuelCost := 0 }) ∧
    (inp.annualElectricCost < 0 →
      computeTaxBenefit inp = computeTaxBenefit { inp with annualElectricCost := 0 }) ∧
    (inp.marginalTaxRatePercent < 0 →
      computeTaxBenefit inp = computeTaxBenefit { inp with marginalTaxRatePercent := 0 }) := by
  refine ⟨⟨?_, ?_, ?_⟩, ?_, ?_, ?_⟩
  · exact le_max_right _ _
  · exact le_max_right _ _
  · by_cases hF : inp.hasFamilyCard <;>
      simp [computeTaxBenefit, hF, SUBSIDY_FAMILY, SUBSIDY_STANDARD]
  · intro h
    have hz : max inp.annualFuelCost 0 = (0 : Int) := max_eq_right h.le
    simp [computeTaxBenefit, clampNonNeg, hz]
  · intro h
    have hz : max inp.annualElectricCost 0 = (0 : Int) := max_eq_right h.le
    simp [computeTaxBenefit, clampNonNeg, hz]
  · intro h
    have hz : max inp.marginalTaxRatePercent 0 = (0 : Int) := max_eq_right h.le
    simp [computeTaxBenefit, clampNonNeg, hz]

/-- Witness for C6 at an input with a negative fuel cost. -/
theorem tax_outputs_witness :
    taxDemoInput.annualFuelCost < 0 ∧
    computeTaxBenefit taxDemoInput =
      computeTaxBenefit { taxDemoInput with annualFuelCost := 0 } ∧
    0 ≤ (computeTaxBenefit taxDemoInput).annualFuelSavings :=
  ⟨by decide, (tax_outputs_nonneg taxDemoInput).2.1 (by decide),
    (tax_outputs_nonneg taxDemoInput).1.1⟩

/-- Helper for C4: rejoining the chunks gives back the input file. -/
theorem chunksOf_flatten {α : Type} (n : Nat) (l : List α) :
    (chunksOf n l).flatten = l := by
  induction n, l using chunksOf.induct with
  | case1 => simp [chunksOf]
  | case2 => simp [chunksOf]
  | case3 n a as ih =>
    rw [chunksOf]
    simp only [List.flatten_cons, ih, List.take_append_drop]

/-- C4: for every input file and chunk size, chunked processing yields
the same per-record results and the same aggregate tier distribution as
whole-file processing. -/
theorem batch_chunking_equivalence (n : Nat) (file : List LeadInput) :
    processChunked n file = processWhole file ∧
    ∀ t : Tier, tierCount t (processChunked n file) = tierCount t (processWhole file) := by
  have h : processChunked n file = processWhole file := by
    simp only [processChunked, processWhole, ← List.map_flatten, chunksOf_flatten]
  exact ⟨h, fun t => by rw [h]⟩

end PipelineTheorems

section FrontendTheorems

/-- C8: with null data, a missing burning house score, or an urgency
score equal to zero, the component renders the hardcoded DEMO_DATA, so
a genuine zero urgency score is indistinguishable from absent data and
is replaced by the demo figures. -/
theorem burning_house_demo_fallback :
    (displayData none = DEMO_DATA) ∧
    (∀ d : GothamData, d.burning_house_score = none →
      displayData (some d) = DEMO_DATA) ∧
    (∀ (d : GothamData) (b : BurningHouseScore),
      d.burning_house_score = some b → b.urgency_score = 0 →
        displayData (some d) = DEMO_DATA ∧
        displayData (some d) = displayData none) := by
  refine ⟨rfl, ?_, ?_⟩
  · intro d hd
    simp [displayData, isDemo, hd]
  · intro d b hd hz
    constructor <;> simp [displayData, isDemo, hd, hz]

/-- Witness for C8 at a real payload whose urgency score is a genuine
zero. -/
theorem burning_house_demo_witness :
    zeroUrgencyData.burning_house_score = some zeroUrgencyBHS ∧
    zeroUrgencyBHS.urgency_score = 0 ∧
    (displayData (some zeroUrgencyData) = DEMO_DATA ∧
      displayData (some zeroUrgencyData) = displayData none) :=
  ⟨rfl, rfl, burning_house_demo_fallback.2.2 zeroUrgencyData zeroUrgencyBHS rfl rfl⟩

/-- C9: closing an existing session sets only that session's status,
outcome and lastUpdated, leaves every other session unchanged, clears
the current session id and returns the view to the dashboard; closing a
missing id leaves the state unchanged. -/
theorem closeSession_frame (st : AppState) (id : String) (outcome : Outcome)
    (now : Nat) :
    (st.sessions id = none → closeSession st id outcome now = st) ∧
    (∀ s : Session, st.sessions id = some s →
      (closeSession st id outcome now).sessions id =
        some { s with status := .closed, outcome := some outcome, lastUpdated := now } ∧
      (∀ k, k ≠ id → (closeSession st id outcome now).sessions k = st.sessions k) ∧
      (closeSession st id outcome now).currentSessionId = none ∧
      (closeSession st id outcome now).currentView = .dashboard) := by
  constructor
  · intro h
    simp [closeSession, h]
  · intro s hs
    refine ⟨?_, ?_, ?_, ?_⟩
    · simp [closeSession, hs, setSession]
    · intro k hk
      simp [closeSession, hs, setSession, hk]
    · simp [closeSession, hs]
    · simp [closeSession, hs]

/-- Witness for C9 on the demo state: closing its only session. -/
theorem closeSession_witness :
    demoState.sessions "S-XLC-589" = some demoSession ∧
    ((closeSession demoState "S-XLC-589" .sale 42).sessions "S-XLC-589" =
        some { demoSession with
          status := .closed, outcome := some .sale, lastUpdated := 42 } ∧
      (∀ k, k ≠ "S-XLC-589" →
        (closeSession demoState "S-XLC-589" .sale 42).sessions k =
          demoState.sessions k) ∧
      (closeSession demoState "S-XLC-589" .sale 42).currentSessionId = none ∧
      (closeSession demoState "S-XLC-589" .sale 42).currentView = .dashboard) :=
  ⟨rfl, (closeSession_frame demoState "S-XLC-589" .sale 42).2 demoSession rfl⟩

/-- C10: updateAnalysis switches the current session's journey stage
only when the incoming stage analysis has a non-null stage, confidence
strictly above 0.7 and a stage differing from the current one; in every
other case, including confidence exactly 0.7 or below and a missing
current session, the stage (or the whole state) is preserved. -/
theorem updateAnalysis_stage_guard (st : AppState) (p : AnalysisPatch) (now : Nat) :
    (st.currentSessionId = none → updateAnalysis st p now = st) ∧
    (∀ (sid : String) (s : Session), st.currentSessionId = some sid →
      st.sessions sid = some s →
      ∃ s2 : Session, (updateAnalysis st p now).sessions sid = some s2 ∧
        (s2.journeyStage ≠ s.journeyStage →
          ∃ jsa stage, p.journeyStageAnalysis = some jsa ∧
            jsa.currentStage = some stage ∧ (7 : ℚ)/10 < jsa.confidence ∧
            stage ≠ s.journeyStage ∧ s2.journeyStage = stage) ∧
        (∀ jsa, p.journeyStageAnalysis = some jsa →
          jsa.confidence ≤ (7 : ℚ)/10 → s2.journeyStage = s.journeyStage) ∧
        (p.journeyStageAnalysis = none → s2.journeyStage = s.journeyStage) ∧
        (∀ jsa, p.journeyStageAnalysis = some jsa → jsa.currentStage = none →
          s2.journeyStage = s.journeyStage) ∧
        (∀ jsa stage, p.journeyStageAnalysis = some jsa →
          jsa.currentStage = some stage → (7 : ℚ)/10 < jsa.confidence →
          stage ≠ s.journeyStage → s2.journeyStage = stage)) := by
  constructor
  · intro h
    simp [updateAnalysis, h]
  · intro sid s hsid hs
    have hupd : (updateAnalysis st p now).sessions sid = some
        { s with
          analysisState := mergeAnalysis st.currentAnalysis p now
          journeyStage :=
            match p.journeyStageAnalysis with
            | none => s.journeyStage
            | some jsa =>
              match jsa.currentStage with
              | none => s.journeyStage
              | some aiStage =>
                if (7 : ℚ)/10 < jsa.confidence ∧ aiStage ≠ s.journeyStage
                then aiStage else s.journeyStage } := by
      simp [updateAnalysis, hsid, hs, setSession]
    refine ⟨_, hupd, ?_, ?_, ?_, ?_, ?_⟩
    · rcases hpa : p.journeyStageAnalysis with _ | jsa
      · simp [hpa]
      · rcases hcs : jsa.currentStage with _ | stage
        · simp [hpa, hcs]
        · by_cases hc : (7 : ℚ)/10 < jsa.confidence ∧ stage ≠ s.journeyStage
          · intro hne
            refine ⟨jsa, stage, rfl, hcs, hc.1, hc.2, ?_⟩
            simp [hpa, hcs, hc]
          · intro hne
            exfalso
            apply hne
            simp [hpa, hcs, hc]
    · intro jsa hpa hconf
      have hnl : ¬ ((7 : ℚ)/10 < jsa.confidence) := not_lt.mpr hconf
      rcases hcs : jsa.currentStage with _ | stage
      · simp [hpa, hcs]
      · simp [hpa, hcs, hnl]
    · intro hpa
      simp [hpa]
    · intro jsa hpa hcs
      simp [hpa, hcs]
    · intro jsa stage hpa hcs hconf hne
      simp [hpa, hcs, hconf, hne]

/-- Witness for C10 on the demo state with a confident stage patch. -/
theorem updateAnalysis_witness :
    demoState.currentSessionId = some "S-XLC-589" ∧
    demoState.sessions "S-XLC-589" = some demoSession ∧
    (∃ s2 : Session,
      (updateAnalysis demoState stagePatch 99).sessions "S-XLC-589" = some s2 ∧
      (s2.journeyStage ≠ demoSession.journeyStage →
        ∃ jsa stage, stagePatch.journeyStageAnalysis = some jsa ∧
          jsa.currentStage = some stage ∧ (7 : ℚ)/10 < jsa.confidence ∧
          stage ≠ demoSession.journeyStage ∧ s2.journeyStage = stage) ∧
      (∀ jsa, stagePatch.journeyStageAnalysis = some jsa →
        jsa.confidence ≤ (7 : ℚ)/10 → s2.journeyStage = demoSession.journeyStage) ∧
      (stagePatch.journeyStageAnalysis = none →
        s2.journeyStage = demoSession.journeyStage) ∧
      (∀ jsa, stagePatch.journeyStageAnalysis = some jsa → jsa.currentStage = none →
        s2.journeyStage = demoSession.journeyStage) ∧
      (∀ jsa stage, stagePatch.journeyStageAnalysis = some jsa →
        jsa.currentStage = some stage → (7 : ℚ)/10 < jsa.confidence →
        stage ≠ demoSession.journeyStage → s2.journeyStage = stage)) :=
  ⟨rfl, rfl,
    (updateAnalysis_stage_guard demoState stagePatch 99).2 "S-XLC-589" demoSession rfl rfl⟩

end FrontendTheorems
